import Mathlib

/-!
# Verification of the `ml-flows` CLI layer and its playbook-QA pipeline contract

Shallow embedding of `src/flows/shrag/__main__.py` and `src/flows/__main__.py`,
plus the pipeline components (`retrieve`, `rerank`, answer synthesis, the
orchestrator) whose implementation lives outside the staged files and is
therefore modelled from the specification.

Python string primitives (`str.split`, `str.replace`) are embedded on
`List Char` with Python's exact semantics, since the CLI's metadata-filter
parsing and document-name derivation depend on them.
-/

namespace Flows

/-! ## Python string primitives -/

/-- `leadsWith p s` is true when the char list `p` is an initial segment of `s`
(the test Python's `str.replace` scan performs at each position). -/
def leadsWith : List Char → List Char → Bool
  | [], _ => true
  | _ :: _, [] => false
  | a :: as, b :: bs => a = b && leadsWith as bs

/-- Python `s.split(sep)` for a one-character separator `sep`:
`"a:b:c".split(":") == ["a","b","c"]`, `"".split(":") == [""]`,
`"a::b".split(":") == ["a","","b"]`. -/
def splitChar (sep : Char) : List Char → List (List Char)
  | [] => [[]]
  | c :: rest =>
    let r := splitChar sep rest
    if c = sep then [] :: r
    else
      match r with
      | [] => [[c]]
      | g :: gs => (c :: g) :: gs

/-- Python `s.split(":")`, as used on each `-m` filter argument
(src/flows/shrag/__main__.py line 164). -/
def pySplitColon (s : String) : List String :=
  (splitChar ':' s.data).map List.asString

/-- The scan of Python `s.replace(old, new)` for a nonempty `old = o :: os`:
replace non-overlapping occurrences left to right, resuming after each
replaced occurrence. The `skip` counter consumes the tail of a just-matched
occurrence (so the recursion is structural on the scanned list). -/
def replaceGo (o : Char) (os new : List Char) : Nat → List Char → List Char
  | _, [] => []
  | Nat.succ k, _ :: rest => replaceGo o os new k rest
  | 0, c :: rest =>
    if leadsWith (o :: os) (c :: rest) then
      new ++ replaceGo o os new os.length rest
    else
      c :: replaceGo o os new 0 rest

/-- Python `s.replace("", new)` inserts `new` before every character and at
the end: `"ab".replace("", "-") == "-a-b-"`. -/
def interleave (new : List Char) : List Char → List Char
  | [] => new
  | c :: rest => new ++ c :: interleave new rest

/-- Python `s.replace(old, new)` on char lists. -/
def pyReplaceL (old new s : List Char) : List Char :=
  match old with
  | [] => interleave new s
  | o :: os => replaceGo o os new 0 s

/-- Python `s.replace(old, new)`. -/
def pyReplace (s old new : String) : String :=
  (pyReplaceL old.data new.data s.data).asString

example : pySplitColon "a:b:c" = ["a", "b", "c"] := by decide
example : pySplitColon "" = [""] := by decide
example : pySplitColon "a::b" = ["a", "", "b"] := by decide
example : pySplitColon "name" = ["name"] := by decide
example : pyReplace "aabb" "ab" "" = "ab" := by decide
example : pyReplace "ab" "" "-" = "-a-b-" := by decide
example : pyReplace "*.canonical.pdf" "*" "" = ".canonical.pdf" := by decide
example : pyReplace "report.pdf.backup.pdf" ".pdf" "" = "report.backup" := by decide

/-! ## `src/flows/shrag/__main__.py`: the `run-playbook-qa` command -/

/-- The Python exception classes relevant here. `dict(...)` over a sequence
whose element is not a pair raises `ValueError`; `InvalidFilterError` is the
dedicated filter-validation error named by the specification (no such class
exists in the source). -/
inductive PyExc where
  | valueError
  | invalidFilterError
deriving DecidableEq, Repr

/-- What Python's `dict(...)` constructor does with one element of the
generator `(param.split(":") for param in meta_filters)`: a two-element
sequence becomes a key/value pair, anything else raises `ValueError`. -/
def dictPairOfList : List String → Except PyExc (String × String)
  | [k, v] => .ok (k, v)
  | _ => .error .valueError

/-- Python `dict` insertion: a repeated key keeps its position and takes the
last value. -/
def dictInsert (d : List (String × String)) (kv : String × String) :
    List (String × String) :=
  if d.any (fun p => p.1 = kv.1) then
    d.map (fun p => if p.1 = kv.1 then (p.1, kv.2) else p)
  else
    d ++ [kv]

/-- Build a Python `dict` (an insertion-ordered association list) from pairs. -/
def pyDict (l : List (String × String)) : List (String × String) :=
  l.foldl dictInsert []

/-- The elements of the generator `(param.split(":") for param in
meta_filters)`, each checked as `dict(...)` consumes it: the parse fails at
the first argument that does not split into exactly two parts. -/
def parsePairs : List String → Except PyExc (List (String × String))
  | [] => .ok []
  | p :: ps => do
    let kv ← dictPairOfList (pySplitColon p)
    let rest ← parsePairs ps
    .ok (kv :: rest)

/-- `dict(param.split(":") for param in meta_filters) if meta_filters else {}`
(src/flows/shrag/__main__.py lines 163-165). An empty argument list yields
the empty dict. -/
def parseMetaFilters (args : List String) : Except PyExc (List (String × String)) :=
  match parsePairs args with
  | .error e => .error e
  | .ok l => .ok (pyDict l)

/-- The RAG parameters assembled by `common_rag_options`
(src/flows/shrag/__main__.py lines 23-44) and passed to `playbook_qa`. -/
structure RagParams where
  chromaCollectionName : String
  chromaHost : String
  chromaPort : Int
  llmBackend : String
  llmModel : String
  embeddingModel : String
  rerankerModel : Option String
  similarityTopK : Int
  similarityCutoff : ℚ
deriving DecidableEq, Repr

/-- Modelled from the spec: `flows.shrag.constants` is not among the staged
source files; §6 fixes `similarity_top_k` (positive integer, default 5),
matching the source docstring "Defaults to 5" (src/flows/shrag/__main__.py
line 85). -/
def SIMILARITY_TOP_K_DEFAULT : Int := 5

/-- Modelled from the spec: `flows.shrag.constants` is not among the staged
source files; §6 fixes `similarity_cutoff` (float in [0,1], default 0.3),
matching the source docstring "Defaults to 0.3" (src/flows/shrag/__main__.py
line 86). Scores are embedded as rationals. -/
def SIMILARITY_CUTOFF_DEFAULT : ℚ := 3 / 10

/-- The parameter record produced by `common_rag_options` when every option is
omitted on the command line: `--reranker-model` defaults to `None`
(src/flows/shrag/__main__.py line 37), `--similarity-top-k` and
`--similarity-cutoff` default to the two constants (lines 38-39). The
host/port/model defaults are modelled from the spec (§6) and the source
docstrings (lines 79-83), their constants module not being staged. -/
def defaultRagParams (collection : String) : RagParams where
  chromaCollectionName := collection
  chromaHost := "localhost"
  chromaPort := 8000
  llmBackend := "openai"
  llmModel := "gpt-4o"
  embeddingModel := "text-embedding-3-small"
  rerankerModel := none
  similarityTopK := SIMILARITY_TOP_K_DEFAULT
  similarityCutoff := SIMILARITY_CUTOFF_DEFAULT

/-- The `run-playbook-qa` command body (src/flows/shrag/__main__.py lines
162-179) up to and including the `playbook_qa` call: parse the `-m` arguments
into metadata filters, then invoke the pipeline with the filters and the RAG
parameters. `playbookQA` stands for the imported `flows.shrag.playbook_qa`;
an exception from filter parsing propagates and the pipeline is never
reached. -/
def runPlaybookQaCmd {α : Type} (playbookQA : String → List (String × String) → RagParams → α)
    (playbookJson : String) (metaFilterArgs : List String) (p : RagParams) :
    Except PyExc α :=
  match parseMetaFilters metaFilterArgs with
  | .error e => .error e
  | .ok filters => .ok (playbookQA playbookJson filters p)

example : parseMetaFilters ["name:contract_A"] = .ok [("name", "contract_A")] := rfl
example : parseMetaFilters ["name"] = .error .valueError := rfl
example : parseMetaFilters ["a:b:c"] = .error .valueError := rfl
example : parseMetaFilters ["k:v", "k:w"] = .ok [("k", "w")] := rfl

/-! ## The pipeline core, modelled from the spec

`flows.shrag.playbook_qa` and its components are imported by the CLI but are
not among the staged source files; they are modelled from the spec (§3-§4.6),
which is the authority for this part. -/

/-- Modelled from the spec: §3 RetrievedChunk — {source document identifier,
chunk text, embedding similarity score, metadata}. Similarity scores are
embedded as rationals. -/
structure RetrievedChunk where
  docId : String
  text : String
  score : ℚ
  metadata : List (String × String)
deriving DecidableEq, Repr

/-- Modelled from the spec: §4.3 Retriever —
`retrieve(query_text, filters, top_k, cutoff) -> RankedContext`. `raw` is the
ordered result of the similarity search already restricted to the filters
(steps 1-2 are the external embedding backend and vector store); step 3
discards results with score below `cutoff`, step 4 truncates to the first
`top_k` in the given stable order. -/
def retrieve (raw : List RetrievedChunk) (topK : Nat) (cutoff : ℚ) :
    List RetrievedChunk :=
  (raw.filter (fun c => cutoff ≤ c.score)).take topK

/-- Stable insertion of a chunk into a list sorted by descending reranker
score (helper for the configured-reranker branch). -/
def insertDesc (key : RetrievedChunk → ℚ) (c : RetrievedChunk) :
    List RetrievedChunk → List RetrievedChunk
  | [] => [c]
  | d :: ds => if key d < key c then c :: d :: ds else d :: insertDesc key c ds

/-- Stable sort by descending reranker score (helper for the
configured-reranker branch). -/
def sortDesc (key : RetrievedChunk → ℚ) : List RetrievedChunk → List RetrievedChunk
  | [] => []
  | c :: cs => insertDesc key c (sortDesc key cs)

/-- Modelled from the spec: §4.4 Reranker —
`rerank(query_text, chunks) -> RankedContext`. When no reranker model is
configured this is the identity function; when configured, each chunk is
re-scored against the query by the cross-encoder `rescore` and the list is
re-sorted descending by the new score. -/
def rerank (rerankerModel : Option String)
    (rescore : String → String → RetrievedChunk → ℚ)
    (queryText : String) (chunks : List RetrievedChunk) : List RetrievedChunk :=
  match rerankerModel with
  | none => chunks
  | some model => sortDesc (rescore model queryText) chunks

/-- Modelled from the spec: §4.1/§3 Question — a unique identifier and prompt
text. -/
structure Question where
  id : String
  prompt : String
deriving DecidableEq, Repr

/-- Modelled from the spec: §3 AnswerResult — {question id, answer text,
supporting source references}. -/
structure AnswerResult where
  questionId : String
  answer : String
  sources : List String
deriving DecidableEq, Repr

/-- Modelled from the spec: §4.5 — the designated explicit "insufficient
evidence" answer produced when the retrieval context is empty. -/
def INSUFFICIENT_EVIDENCE_ANSWER : String := "insufficient evidence"

/-- Modelled from the spec: §4.5 — the grounded prompt built from the question
text and the ordered context chunks. -/
def buildPrompt (q : Question) (ctx : List RetrievedChunk) : String :=
  q.prompt ++ String.join (ctx.map (fun c => "\n" ++ c.text))

/-- Modelled from the spec: §4.5 Answer Synthesizer —
`answer(question, context) -> AnswerResult`. `llmComplete` is the pluggable
language-model backend (§6: `complete(prompt, model_name) -> text`) and
`parseResponse` parses its response into answer text plus source references.
With an empty context the synthesizer produces the designated "insufficient
evidence" answer with no sources instead of invoking the backend. -/
def synthesizeAnswer (llmComplete : String → String)
    (parseResponse : String → String × List String)
    (q : Question) (ctx : List RetrievedChunk) : AnswerResult :=
  if ctx.isEmpty then
    { questionId := q.id, answer := INSUFFICIENT_EVIDENCE_ANSWER, sources := [] }
  else
    let response := llmComplete (buildPrompt q ctx)
    let parsed := parseResponse response
    { questionId := q.id, answer := parsed.1, sources := parsed.2 }

/-- Modelled from the spec: §6 Playbook input — a top-level collection of
question entries, optionally nested under section groupings. -/
inductive PlaybookNode where
  | question (id promptText : String)
  | group (title : String) (children : List PlaybookNode)

mutual

/-- Modelled from the spec: §4.1 `flatten()` — the stable depth-first,
source-order sequence of a playbook's questions. -/
def flattenNode : PlaybookNode → List Question
  | .question i p => [⟨i, p⟩]
  | .group _ children => flattenNodes children

/-- Depth-first flattening of a forest of playbook nodes. -/
def flattenNodes : List PlaybookNode → List Question
  | [] => []
  | n :: ns => flattenNode n ++ flattenNodes ns

end

/-- Modelled from the spec: §4.6/§7 — a per-question failure marker (error
kind + message) recorded in the aggregate result instead of propagating. -/
inductive QAEntry where
  | success (a : AnswerResult)
  | failure (errKind errMsg : String)
deriving DecidableEq, Repr

/-- Modelled from the spec: §4.6 Pipeline Orchestrator — for each question of
the flattened playbook, run the retrieve→rerank→synthesize chain
(`answerOne`, which may fail per question) and record one entry keyed by the
question id: the AnswerResult on success, a failure marker on error. -/
def runPlaybook (answerOne : Question → Except (String × String) AnswerResult)
    (playbook : List PlaybookNode) : List (String × QAEntry) :=
  (flattenNodes playbook).map fun q =>
    (q.id,
      match answerOne q with
      | .ok a => QAEntry.success a
      | .error e => QAEntry.failure e.1 e.2)

/-! ## `src/flows/shrag/__main__.py`: the `run-playbook-qa-from-directory`
command

The filesystem is modelled explicitly: a directory tree is a list of entries
(base name + regular-file flag), `Path.rglob(pattern)` for a single-component
pattern is the entries whose base name matches the glob, and the output side
is a store of directories and files. -/

/-- The glob-matching recursion, structural on a fuel counter (every step
shortens the pattern or the candidate, so `pat.length + s.length + 1` fuel
always suffices and the out-of-fuel case is unreachable). -/
def globGo : Nat → List Char → List Char → Bool
  | 0, _, _ => false
  | Nat.succ _, [], s => s.isEmpty
  | Nat.succ f, p :: ps, s =>
    if p = '*' then
      globGo f ps s ||
        match s with
        | [] => false
        | _ :: t => globGo f (p :: ps) t
    else
      match s with
      | [] => false
      | c :: t => c = p && globGo f ps t

/-- Glob matching for the literal-and-`*` fragment used by the command's file
globs (`*` matches any, possibly empty, character sequence; other characters
are literal). -/
def globMatch (pat s : List Char) : Bool :=
  globGo (pat.length + s.length + 1) pat s

/-- One entry of the input directory tree: the file's base name
(`filename.name`) and whether it is a regular file (`filename.is_file()`). -/
structure FileEntry where
  name : String
  isFile : Bool
deriving DecidableEq, Repr

/-- `ext = file_glob.replace("*", "")` (src/flows/shrag/__main__.py line 92):
the glob's non-wildcard portion. -/
def deriveExt (fileGlob : String) : String :=
  pyReplace fileGlob "*" ""

/-- `fname = filename.name.replace(ext, "")` (src/flows/shrag/__main__.py
line 93): the document name used as the metadata-filter value. -/
def deriveFname (fileGlob name : String) : String :=
  pyReplace name (deriveExt fileGlob) ""

/-- The output side of the filesystem: existing directories and written
files. -/
structure Fs where
  dirs : List String
  files : List (String × String)
deriving DecidableEq, Repr

/-- `output_directory.exists()`. -/
def dirMember (fs : Fs) (d : String) : Bool :=
  fs.dirs.contains d

/-- The proper ancestors of a `/`-separated path, shortest first
(e.g. `"a/b/c"` ↦ `["a", "a/b"]`). -/
def ancestorsOf (p : String) : List String :=
  let parts := (splitChar '/' p.data).map List.asString
  (List.range (parts.length - 1)).map fun i =>
    String.intercalate "/" (parts.take (i + 1))

/-- `output_directory.mkdir(parents=True)`: the directory and all its missing
ancestors come into existence. -/
def mkdirParents (fs : Fs) (p : String) : Fs :=
  { fs with dirs := fs.dirs ++ ancestorsOf p ++ [p] }

/-- `(output_directory / result_filename).open("w")` followed by the write:
succeeds (second component `true`) exactly when the directory exists. -/
def writeFile (fs : Fs) (dir fname contents : String) : Fs × Bool :=
  if dirMember fs dir then
    ({ fs with files := fs.files ++ [(dir ++ "/" ++ fname, contents)] }, true)
  else
    (fs, false)

/-- One recorded call of `playbook_qa`. -/
structure Invocation where
  playbookJson : String
  metaFilters : List (String × String)
  params : RagParams
deriving DecidableEq, Repr

/-- The loop's evolving state: the output filesystem, the `playbook_qa` calls
made so far, and how many writes failed for want of the output directory. -/
structure DirState where
  fs : Fs
  invocations : List Invocation
  failedWrites : Nat
deriving DecidableEq, Repr

/-- The body of the `for filename in Path(input_directory).rglob(file_glob)`
loop (src/flows/shrag/__main__.py lines 91-120): for a regular file, derive
the document name from the base name and the glob, call `playbook_qa` with
metadata filters `{"name": fname}` and the shared parameters, create the
output directory (with parents) if missing, and write the serialized result
to `name=<fname>_qa_results.json` there. -/
def processEntry (playbookQA : String → List (String × String) → RagParams → String)
    (playbookJson outputDirectory fileGlob : String) (p : RagParams)
    (st : DirState) (e : FileEntry) : DirState :=
  if e.isFile then
    let fname := deriveFname fileGlob e.name
    let metaFilters := [("name", fname)]
    let res := playbookQA playbookJson metaFilters p
    let resultFilename := "name=" ++ fname ++ "_qa_results.json"
    let fs1 := if dirMember st.fs outputDirectory then st.fs
               else mkdirParents st.fs outputDirectory
    let written := writeFile fs1 outputDirectory resultFilename res
    { fs := written.1,
      invocations := st.invocations ++ [⟨playbookJson, metaFilters, p⟩],
      failedWrites := st.failedWrites + (if written.2 then 0 else 1) }
  else st

/-- The `run-playbook-qa-from-directory` command body
(src/flows/shrag/__main__.py lines 89-120): iterate over the entries of the
input tree whose base name matches the file glob, processing each regular
one. -/
def runPlaybookQaFromDirectory
    (playbookQA : String → List (String × String) → RagParams → String)
    (entries : List FileEntry) (playbookJson outputDirectory fileGlob : String)
    (p : RagParams) (fs0 : Fs) : DirState :=
  (entries.filter (fun e => globMatch fileGlob.data e.name.data)).foldl
    (processEntry playbookQA playbookJson outputDirectory fileGlob p)
    ⟨fs0, [], 0⟩

example : globMatch "*.canonical.pdf".data "a.canonical.pdf".data = true := by decide
example : globMatch "*.canonical.pdf".data "a.notes.txt".data = false := by decide
example : ancestorsOf "a/b/c" = ["a", "a/b"] := by decide

/-! ## `src/flows/__main__.py`: the `read-result` command -/

/-- The storage directory: stored result files by path. -/
structure Storage where
  files : List (String × String)
deriving DecidableEq, Repr

/-- `rfile.exists()` / reading `rfile`: the stored raw contents, when
present. -/
def lookupFile (st : Storage) (p : String) : Option String :=
  st.files.lookup p

/-- What the `read-result` command observably does. -/
inductive ReadOutcome where
  | printedResult (text : String)
  | notFound (msg : String)
  | raised (e : PyExc)
deriving DecidableEq, Repr

/-- The `read-result` command body (src/flows/__main__.py lines 85-92):
`rfile = Path(storage_path).resolve() / result_id`; when the file exists its
contents are deserialized (`json.load`, base64, `cloudpickle.loads` —
abstracted as `decodeResult`, whose failure would propagate as an exception)
and the result is printed; otherwise a not-found message is printed and the
command returns normally. Path resolution is modelled as the identity on the
already-resolved storage path. -/
def readFromStorage (decodeResult : String → Except PyExc String)
    (st : Storage) (storagePath resultId : String) : ReadOutcome :=
  let rfile := storagePath ++ "/" ++ resultId
  match lookupFile st rfile with
  | some raw =>
    match decodeResult raw with
    | .ok r => .printedResult r
    | .error e => .raised e
  | none => .notFound ("💥 " ++ rfile ++ " could not be found!")

/-! ## Theorems -/

/-- **C2**: for every retrieval with `top_k = k` and `cutoff = c`, the
resulting RankedContext has length at most `k` and every chunk in it has
similarity score at least `c` — both bounds hold simultaneously, whatever
the raw search result. -/
theorem c2_rankedContext_bounds (raw : List RetrievedChunk) (topK : Nat) (cutoff : ℚ) :
    (retrieve raw topK cutoff).length ≤ topK ∧
      ∀ c ∈ retrieve raw topK cutoff, cutoff ≤ c.score := by
  constructor
  · exact List.length_take_le _ _
  · intro c hc
    have hmem : c ∈ raw.filter (fun c => cutoff ≤ c.score) := List.mem_of_mem_take hc
    exact of_decide_eq_true (List.mem_filter.mp hmem).2

/-- **C3**: for every playbook whose flattened form has N questions, the
orchestrator's result has exactly N entries, keyed by the question ids in
order, each entry a success or an explicit failure marker — no question id is
missing, whatever the per-question outcomes. -/
theorem c3_one_entry_per_question
    (answerOne : Question → Except (String × String) AnswerResult)
    (playbook : List PlaybookNode) :
    (runPlaybook answerOne playbook).length = (flattenNodes playbook).length ∧
      (runPlaybook answerOne playbook).map Prod.fst =
        (flattenNodes playbook).map Question.id := by
  constructor
  · simp [runPlaybook]
  · simp only [runPlaybook, List.map_map]
    rfl

/-- **C4**: with an empty retrieval context the synthesizer produces the
designated "insufficient evidence" answer with zero source references, and
its output does not depend on the language-model backend or the response
parsing at all (the backend is not invoked). -/
theorem c4_empty_context_insufficient_evidence
    (llmA llmB : String → String) (parseA parseB : String → String × List String)
    (q : Question) :
    synthesizeAnswer llmA parseA q [] =
        { questionId := q.id, answer := INSUFFICIENT_EVIDENCE_ANSWER, sources := [] } ∧
      (synthesizeAnswer llmA parseA q []).sources = [] ∧
      synthesizeAnswer llmA parseA q [] = synthesizeAnswer llmB parseB q [] :=
  ⟨rfl, rfl, rfl⟩

/-- **C5**: when no reranker model is configured — in particular under the
CLI default `--reranker-model None` — `rerank` returns its input chunk list
unchanged in content and order, for every query and chunk list. -/
theorem c5_rerank_identity_when_unconfigured
    (rescore : String → String → RetrievedChunk → ℚ)
    (queryText collection : String) (chunks : List RetrievedChunk) :
    rerank (defaultRagParams collection).rerankerModel rescore queryText chunks = chunks ∧
      rerank none rescore queryText chunks = chunks :=
  ⟨rfl, rfl⟩

/-- **C7**: with `--similarity-top-k` and `--similarity-cutoff` omitted, the
CLI invokes the pipeline with `similarity_top_k = 5` (a positive integer) and
`similarity_cutoff = 0.3` (in `[0,1]`): the default parameter record carries
exactly these values, and the command passes it to `playbook_qa` unchanged. -/
theorem c7_default_retrieval_params {α : Type}
    (playbookQA : String → List (String × String) → RagParams → α)
    (playbookJson collection : String) :
    (defaultRagParams collection).similarityTopK = 5 ∧
      0 < (defaultRagParams collection).similarityTopK ∧
      (defaultRagParams collection).similarityCutoff = 3 / 10 ∧
      0 ≤ (defaultRagParams collection).similarityCutoff ∧
      (defaultRagParams collection).similarityCutoff ≤ 1 ∧
      runPlaybookQaCmd playbookQA playbookJson [] (defaultRagParams collection) =
        .ok (playbookQA playbookJson [] (defaultRagParams collection)) := by
  refine ⟨rfl, by norm_num [defaultRagParams, SIMILARITY_TOP_K_DEFAULT], rfl,
    by norm_num [defaultRagParams, SIMILARITY_CUTOFF_DEFAULT],
    by norm_num [defaultRagParams, SIMILARITY_CUTOFF_DEFAULT], rfl⟩

/-- **C9**: when the requested result file does not exist under the storage
path, `read-result` prints a not-found message and returns normally — it
raises nothing and never invokes deserialization (its outcome is independent
of the decoder); when the file exists and decodes, it prints the stored
result. -/
theorem c9_read_result_missing_file
    (decodeA decodeB : String → Except PyExc String) (st : Storage)
    (storagePath resultId : String) :
    (lookupFile st (storagePath ++ "/" ++ resultId) = none →
        readFromStorage decodeA st storagePath resultId =
            .notFound ("💥 " ++ (storagePath ++ "/" ++ resultId) ++
              " could not be found!") ∧
          readFromStorage decodeA st storagePath resultId =
            readFromStorage decodeB st storagePath resultId) ∧
      (∀ raw r, lookupFile st (storagePath ++ "/" ++ resultId) = some raw →
        decodeA raw = .ok r →
        readFromStorage decodeA st storagePath resultId = .printedResult r) := by
  constructor
  · intro h
    constructor <;> simp [readFromStorage, h]
  · intro raw r h hd
    simp [readFromStorage, h, hd]

/-- A list that does not split into exactly two parts is rejected by the
`dict(...)` constructor with a `ValueError`. -/
theorem dictPairOfList_of_length_ne_two (l : List String) (h : l.length ≠ 2) :
    dictPairOfList l = .error .valueError := by
  match l with
  | [] => rfl
  | [_] => rfl
  | [_, _] => exact absurd rfl h
  | _ :: _ :: _ :: _ => rfl

/-- The only exception `dict(...)` element checking raises is `ValueError`. -/
theorem dictPairOfList_error_eq (l : List String) (e : PyExc)
    (h : dictPairOfList l = .error e) : e = .valueError := by
  match l with
  | [k, v] => simp [dictPairOfList] at h
  | [] => simpa [dictPairOfList] using h.symm
  | [_] => simpa [dictPairOfList] using h.symm
  | _ :: _ :: _ :: _ => simpa [dictPairOfList] using h.symm

/-- When some `-m` argument does not split on `":"` into exactly two parts,
parsing the filter pairs raises `ValueError`. -/
theorem parsePairs_error (args : List String)
    (h : ∃ a ∈ args, (pySplitColon a).length ≠ 2) :
    parsePairs args = .error .valueError := by
  induction args with
  | nil => exact absurd h (by simp)
  | cons p ps ih =>
    by_cases hp : (pySplitColon p).length = 2
    · obtain ⟨a, ha, hlen⟩ := h
      rcases List.mem_cons.mp ha with rfl | hmem
      · exact absurd hp hlen
      · have hps : parsePairs ps = .error .valueError := ih ⟨a, hmem, hlen⟩
        obtain ⟨k, v, hkv⟩ : ∃ k v, pySplitColon p = [k, v] := by
          match hl : pySplitColon p with
          | [k, v] => exact ⟨k, v, rfl⟩
          | [] => rw [hl] at hp; simp at hp
          | [_] => rw [hl] at hp; simp at hp
          | _ :: _ :: _ :: _ => rw [hl] at hp; simp at hp
        simp only [parsePairs, hkv]
        rw [hps]; rfl
    · have hfail := dictPairOfList_of_length_ne_two _ hp
      simp only [parsePairs]
      rw [hfail]; rfl

/-- **C1** counterexample: the `-m` filter string `"name"` has no `":"`
separator, yet `run-playbook-qa`'s filter parsing raises `ValueError` (from
the `dict(...)` constructor), not the `InvalidFilterError` the claim names —
no such exception class exists in the source. -/
theorem c1_counterexample :
    runPlaybookQaCmd (fun _ _ _ => (0 : Nat)) "playbook.json" ["name"]
        (defaultRagParams "kb") = .error .valueError ∧
      (PyExc.valueError ≠ PyExc.invalidFilterError) ∧
      runPlaybookQaCmd (fun _ _ _ => (0 : Nat)) "playbook.json" ["name"]
        (defaultRagParams "kb") ≠ .error .invalidFilterError := by
  refine ⟨rfl, by decide, fun h => ?_⟩
  exact absurd (Except.error.inj h) (by decide)

/-- **C1** (amended): for every `-m` metadata-filter string that is malformed
(no `":"` separator, or more than one so the split is not a pair), the
`run-playbook-qa` command fails with `ValueError` — raised by the `dict`
constructor during filter parsing, not the spec's `InvalidFilterError` — and
this failure surfaces before `playbook_qa` is invoked: the outcome is the
same error for every possible pipeline. -/
theorem c1_malformed_filter_fails_before_pipeline {α : Type}
    (playbookQA : String → List (String × String) → RagParams → α)
    (playbookJson : String) (metaFilterArgs : List String) (p : RagParams)
    (h : ∃ a ∈ metaFilterArgs, (pySplitColon a).length ≠ 2) :
    runPlaybookQaCmd playbookQA playbookJson metaFilterArgs p =
      .error .valueError := by
  unfold runPlaybookQaCmd parseMetaFilters
  rw [parsePairs_error _ h]

/-- **C1** witness: the malformed filter string `"name"` (and, for good
measure, the ambiguous `"a:b:c"`) makes the command fail with `ValueError`
with the pipeline never reached. -/
theorem c1_malformed_filter_witness :
    runPlaybookQaCmd (fun _ _ _ => (0 : Nat)) "playbook.json" ["a:b:c"]
        (defaultRagParams "kb") = .error .valueError :=
  c1_malformed_filter_fails_before_pipeline (fun _ _ _ => (0 : Nat))
    "playbook.json" ["a:b:c"] (defaultRagParams "kb")
    ⟨"a:b:c", by simp, by decide⟩

/-- The per-file `playbook_qa` call recorded for a matching regular file. -/
def mkInvocation (playbookJson fileGlob : String) (p : RagParams)
    (e : FileEntry) : Invocation :=
  ⟨playbookJson, [("name", deriveFname fileGlob e.name)], p⟩

/-- Unrolling the directory loop: the calls it makes are one per regular
file, in order, appended to whatever the starting state already recorded. -/
theorem foldl_processEntry_invocations
    (playbookQA : String → List (String × String) → RagParams → String)
    (playbookJson outputDirectory fileGlob : String) (p : RagParams)
    (l : List FileEntry) (st : DirState) :
    ((l.foldl (processEntry playbookQA playbookJson outputDirectory fileGlob p)
        st).invocations) =
      st.invocations ++
        (l.filter (fun e => e.isFile)).map (mkInvocation playbookJson fileGlob p) := by
  induction l generalizing st with
  | nil => simp
  | cons e es ih =>
    by_cases he : e.isFile = true
    · simp only [List.foldl_cons, List.filter_cons, he, if_pos, List.map_cons, ih,
        processEntry, mkInvocation]
      simp [he]
    · simp only [List.foldl_cons, List.filter_cons, he, List.map_cons, ih,
        processEntry]
      simp [he]

/-- **C6**: `run-playbook-qa-from-directory` invokes `playbook_qa` exactly
once per regular file matching the file glob — in traversal order, each time
with metadata filters `{"name": <derived document name>}` and the same
playbook and parameters — and never for a non-matching or non-regular
entry. -/
theorem c6_one_invocation_per_matching_file
    (playbookQA : String → List (String × String) → RagParams → String)
    (entries : List FileEntry) (playbookJson outputDirectory fileGlob : String)
    (p : RagParams) (fs0 : Fs) :
    (runPlaybookQaFromDirectory playbookQA entries playbookJson outputDirectory
        fileGlob p fs0).invocations =
      ((entries.filter (fun e => globMatch fileGlob.data e.name.data)).filter
          (fun e => e.isFile)).map
        (fun e => ⟨playbookJson, [("name", deriveFname fileGlob e.name)], p⟩) := by
  unfold runPlaybookQaFromDirectory
  rw [foldl_processEntry_invocations]
  simp [mkInvocation]

/-- A directory just created by `mkdir(parents=True)` exists. -/
theorem dirMember_mkdirParents_self (fs : Fs) (p : String) :
    dirMember (mkdirParents fs p) p = true := by
  have : p ∈ fs.dirs ++ ancestorsOf p ++ [p] := by simp
  exact List.elem_eq_true_of_mem this

/-- After the loop body's existence check, the output directory exists. -/
theorem dirMember_ensure (fs : Fs) (p : String) :
    dirMember (if dirMember fs p then fs else mkdirParents fs p) p = true := by
  by_cases hd : dirMember fs p = true
  · simp [hd]
  · simp [hd, dirMember_mkdirParents_self]

/-- No iteration of the directory loop has a failed result-file write. -/
theorem processEntry_failedWrites
    (playbookQA : String → List (String × String) → RagParams → String)
    (playbookJson outputDirectory fileGlob : String) (p : RagParams)
    (st : DirState) (e : FileEntry) :
    (processEntry playbookQA playbookJson outputDirectory fileGlob p st
        e).failedWrites = st.failedWrites := by
  by_cases he : e.isFile = true
  · simp only [processEntry, he, if_pos]
    simp [writeFile, dirMember_ensure]
  · simp [processEntry, he]

/-- Unrolling the loop: the count of failed writes never grows. -/
theorem foldl_processEntry_failedWrites
    (playbookQA : String → List (String × String) → RagParams → String)
    (playbookJson outputDirectory fileGlob : String) (p : RagParams)
    (l : List FileEntry) (st : DirState) :
    ((l.foldl (processEntry playbookQA playbookJson outputDirectory fileGlob p)
        st).failedWrites) = st.failedWrites := by
  induction l generalizing st with
  | nil => rfl
  | cons e es ih =>
    rw [List.foldl_cons, ih, processEntry_failedWrites]

/-- **C10**: before each per-document result write the loop creates the
output directory — with its missing ancestors — when it does not already
exist, so no write ever fails for want of the output directory (zero failed
writes, from any starting filesystem), and `mkdir(parents=True)` indeed
brings the directory and every ancestor into existence. -/
theorem c10_output_directory_created_before_write
    (playbookQA : String → List (String × String) → RagParams → String)
    (entries : List FileEntry) (playbookJson outputDirectory fileGlob : String)
    (p : RagParams) (fs0 : Fs) :
    (runPlaybookQaFromDirectory playbookQA entries playbookJson outputDirectory
        fileGlob p fs0).failedWrites = 0 ∧
      ∀ fs d, d ∈ ancestorsOf outputDirectory ++ [outputDirectory] →
        dirMember (mkdirParents fs outputDirectory) d = true := by
  constructor
  · unfold runPlaybookQaFromDirectory
    rw [foldl_processEntry_failedWrites]
  · intro fs d hd
    have : d ∈ fs.dirs ++ ancestorsOf outputDirectory ++ [outputDirectory] := by
      rw [List.append_assoc]
      exact List.mem_append_right _ hd
    simpa [dirMember, mkdirParents] using List.elem_eq_true_of_mem this

/-- A list is an initial segment of itself followed by anything. -/
theorem leadsWith_append_self (p b : List Char) : leadsWith p (p ++ b) = true := by
  induction p with
  | nil => rfl
  | cons c cs ih => simp [leadsWith, ih]

/-- Skipping exactly the length of a just-matched occurrence consumes it. -/
theorem replaceGo_skip (o : Char) (os new : List Char) (l b : List Char) :
    replaceGo o os new l.length (l ++ b) = replaceGo o os new 0 b := by
  induction l with
  | nil => rfl
  | cons c cs ih => simpa [replaceGo] using ih

/-- The heart of C8: when the replaced substring `o :: os` has an occurrence
at position `a.length` of `a ++ (o :: os) ++ b` and none starting earlier,
Python's replace-with-`""` scan removes that occurrence — wherever it sits,
suffix or not — and continues scanning the remainder `b`. -/
theorem replaceGo_no_early_match (o : Char) (os : List Char) (a b : List Char)
    (h : ∀ j, j < a.length →
      leadsWith (o :: os) ((a ++ (o :: os) ++ b).drop j) = false) :
    replaceGo o os [] 0 (a ++ (o :: os) ++ b) = a ++ replaceGo o os [] 0 b := by
  induction a with
  | nil =>
    have hlead : leadsWith (o :: os) ((o :: os) ++ b) = true :=
      leadsWith_append_self _ _
    simp only [List.nil_append] at *
    rw [show (o :: os) ++ b = o :: (os ++ b) from rfl] at hlead ⊢
    simp only [replaceGo, hlead, if_pos, List.nil_append]
    exact replaceGo_skip o os [] os b
  | cons c a' ih =>
    have h0 : leadsWith (o :: os) ((c :: a') ++ (o :: os) ++ b) = false := by
      have := h 0 (by simp)
      simpa using this
    rw [show (c :: a') ++ (o :: os) ++ b = c :: (a' ++ (o :: os) ++ b) from rfl]
      at h0 ⊢
    simp only [replaceGo, h0, if_neg, Bool.false_eq_true, not_false_eq_true,
      List.cons_append]
    rw [ih]
    intro j hj
    have := h (j + 1) (by simp; omega)
    simpa using this

/-- **C8**: the document name `run-playbook-qa-from-directory` puts in the
metadata filter is the file's base name with every occurrence of the glob's
non-wildcard portion `ext = file_glob.replace("*", "")` removed by a string
replace — also occurrences in non-suffix position: whenever the base name
splits as `a ++ ext ++ b` with no occurrence of `ext` starting inside `a`
(so the occurrence shown is the leftmost), the scan removes it, keeps `a`,
and continues replacing in the arbitrary remainder `b`. -/
theorem c8_fname_strips_every_occurrence (fileGlob name : String)
    (a b : List Char)
    (hsplit : name.data = a ++ (deriveExt fileGlob).data ++ b)
    (hne : (deriveExt fileGlob).data ≠ [])
    (hfirst : ∀ j, j < a.length →
      leadsWith (deriveExt fileGlob).data (name.data.drop j) = false) :
    (deriveFname fileGlob name).data =
      a ++ pyReplaceL (deriveExt fileGlob).data [] b := by
  obtain ⟨o, os, ho⟩ : ∃ o os, (deriveExt fileGlob).data = o :: os := by
    match hl : (deriveExt fileGlob).data with
    | [] => exact absurd hl hne
    | o :: os => exact ⟨o, os, rfl⟩
  rw [hsplit] at hfirst
  show pyReplaceL (deriveExt fileGlob).data [] name.data = _
  rw [hsplit, ho]
  simp only [pyReplaceL]
  exact replaceGo_no_early_match o os a b (by rw [← ho]; exact hfirst)

/-- **C8** witness: for the glob `*.pdf` (`ext = ".pdf"`) and the base name
`report.pdf.backup.pdf`, whose first `.pdf` occurrence is internal, the
derived document name removes that internal occurrence too and continues in
the remainder. -/
theorem c8_fname_witness :
    (deriveFname "*.pdf" "report.pdf.backup.pdf").data =
      "report".data ++ pyReplaceL (deriveExt "*.pdf").data [] ".backup.pdf".data :=
  c8_fname_strips_every_occurrence "*.pdf" "report.pdf.backup.pdf"
    "report".data ".backup.pdf".data (by decide) (by decide) (by decide)

example : deriveFname "*.pdf" "report.pdf.backup.pdf" = "report.backup" := by decide

end Flows
